import Mathlib

/-!
Verification of the data-weaver server: a shallow embedding of the
dataset loader (`server/s3_loader.py`), the sandbox session manager
(`server/data_analyzer_agentcore.py`), the tool adapter
(`server/tools/code_interpreter.py`) and the HTTP handlers
(`server/app.py`), with theorems settling the specified properties.

External collaborators (boto3, pandas, the remote code-interpreter
service, FastAPI routing) are modelled as explicit parameters: remote
reads become a `fetch` function, the sandbox response stream becomes a
list of events, and failure of a remote call becomes a boolean flag.
-/

namespace DataWeaver

/-- An in-memory tabular dataset. The claims never inspect cell
contents, only how tables are named and routed, so rows are kept as
plain strings. -/
structure DataFrame where
  cols : List String
  rows : List (List String)
deriving Repr, DecidableEq

/-- Python `dict` assignment `d[k] = v`: overwrite in place when the key
is present (keeping its position), append otherwise. -/
def dictInsert {α : Type} (d : List (String × α)) (k : String) (v : α) :
    List (String × α) :=
  if d.any (fun p => p.1 == k) then
    d.map (fun p => if p.1 == k then (k, v) else p)
  else
    d ++ [(k, v)]

/-- Python `k in d`. -/
def dictContains {α : Type} (d : List (String × α)) (k : String) : Bool :=
  d.any (fun p => p.1 == k)

/-- Python `d[k]` (as an `Option`, `none` when absent). -/
def dictGet {α : Type} (d : List (String × α)) (k : String) : Option α :=
  (d.find? (fun p => p.1 == k)).map (fun p => p.2)

/-- Python `del d[k]`. -/
def dictDelete {α : Type} (d : List (String × α)) (k : String) :
    List (String × α) :=
  d.filter (fun p => p.1 != k)

/-- Python truthiness of an optional string: `None` and `""` are falsy. -/
def pyTruthy : Option String → Bool
  | none => false
  | some s => s != ""

/-! ## Dataset loader (`server/s3_loader.py`)

The body fetched from object storage is modelled by what the external
pandas reader would produce from its bytes: a parsed table for the
flat formats, a sheet list for spreadsheets. A reader applied to bytes
of the wrong shape fails, which the model reports as a parse error. -/

/-- The parse of a remote object's bytes by the matching pandas reader. -/
inductive FileBody where
  | csvBody (df : DataFrame)
  | excelBody (sheets : List (String × DataFrame))
  | parquetBody (df : DataFrame)
  | jsonBody (df : DataFrame)
deriving Repr, DecidableEq

inductive LoadError where
  | unsupportedFormat (ext : String)
  | parseError
deriving Repr, DecidableEq

/-- Python `str.split(sep)` for a one-character separator, on the
character list (`''.split('.') == ['']`, and a trailing separator
yields a trailing empty part, as in Python). -/
def splitOnChar (c : Char) : List Char → List (List Char)
  | [] => [[]]
  | x :: xs =>
    match splitOnChar c xs with
    | [] => if x = c then [[], [x]] else [[x]]
    | y :: ys => if x = c then [] :: y :: ys else (x :: y) :: ys

/-- Python `str.join` over character lists (used to rebuild the object
key from its slash-separated parts). -/
def joinChar (c : Char) : List (List Char) → List Char
  | [] => []
  | [x] => x
  | x :: xs => x ++ c :: joinChar c xs

/-- Python `str.lower` (per-character case folding, as `lower()`
behaves on the ASCII extension and key strings involved). -/
def pyLower (s : String) : String := ⟨s.data.map Char.toLower⟩

/-- Python `str.startswith`. -/
def strStartsWith (s pre : String) : Bool := List.isPrefixOf pre.data s.data

/-- `parse_s3_url`: `urlparse` on an `s3://bucket/key` URL gives
`netloc = bucket` and `path.lstrip('/') = key`. -/
def parse_s3_url (s3_url : String) : String × String :=
  let cs := if strStartsWith s3_url "s3://" then s3_url.data.drop 5
    else s3_url.data
  match splitOnChar '/' cs with
  | [] => (⟨cs⟩, ⟨[]⟩)
  | b :: ks => (⟨b⟩, ⟨joinChar '/' ks⟩)

/-- `get_file_extension`: `key.split('.')[-1].lower()`. -/
def get_file_extension (key : String) : String :=
  pyLower ⟨(splitOnChar '.' key.data).getLastD []⟩

/-- `load_from_s3`: fetch the object, dispatch on the key's extension,
return the named tables. `fetch bucket key` stands for the S3
`get_object` read. -/
def load_from_s3 (s3_url : String) (fetch : String → String → FileBody) :
    Except LoadError (List (String × DataFrame)) :=
  let bk := parse_s3_url s3_url
  let body := fetch bk.1 bk.2
  let file_ext := get_file_extension bk.2
  if file_ext = "csv" then
    match body with
    | .csvBody df => .ok [("data", df)]
    | _ => .error .parseError
  else if file_ext = "xlsx" ∨ file_ext = "xls" then
    match body with
    | .excelBody sheets =>
      .ok (sheets.foldl (fun acc p => dictInsert acc p.1 p.2) [])
    | _ => .error .parseError
  else if file_ext = "parquet" then
    match body with
    | .parquetBody df => .ok [("data", df)]
    | _ => .error .parseError
  else if file_ext = "json" then
    match body with
    | .jsonBody df => .ok [("data", df)]
    | _ => .error .parseError
  else
    .error (.unsupportedFormat file_ext)

/-- One step of `load_multiple_from_s3`'s loop body: merge the tables
of one logical entry into the accumulator. -/
def mergeEntry (acc : List (String × DataFrame)) (name : String)
    (dfs : List (String × DataFrame)) : List (String × DataFrame) :=
  match dfs with
  | [p] => dictInsert acc name p.2
  | _ => dfs.foldl (fun a p => dictInsert a (name ++ "_" ++ p.1) p.2) acc

/-- `load_multiple_from_s3`: load every reference in order; a
single-table load is stored under the logical name, a multi-table load
under `{name}_{sheet}`. The first failing load aborts the whole call. -/
def load_multiple_from_s3 (s3_urls : List (String × String))
    (fetch : String → String → FileBody) :
    Except LoadError (List (String × DataFrame)) :=
  go s3_urls []
where
  go : List (String × String) → List (String × DataFrame) →
      Except LoadError (List (String × DataFrame))
  | [], acc => .ok acc
  | (name, url) :: rest, acc =>
    match load_from_s3 url fetch with
    | .error e => .error e
    | .ok dfs => go rest (mergeEntry acc name dfs)

/-! ## Tool adapter (`server/tools/code_interpreter.py`)

The remote sandbox's reply to an invocation is a stream of events, each
carrying a JSON `result`; the adapter serializes a result with the
external `json.dumps`. The stream is passed in as a list, and each
operation also reports the list of remote invocations it issued (by
tool name), so "no remote call was made" is observable. -/

/-- A JSON value, as held in an event's `result` field. -/
inductive JVal where
  | jnull : JVal
  | jbool : Bool → JVal
  | jnum : Int → JVal
  | jstr : String → JVal
  | jarr : List JVal → JVal
  | jobj : List (String × JVal) → JVal
deriving Repr

/-- Model of the external `json.dumps` (default separators). Escaping
is limited to quotes and backslashes, which is all the claims need. -/
def JVal.dumps : JVal → String
  | .jnull => "null"
  | .jbool b => if b then "true" else "false"
  | .jnum n => toString n
  | .jstr s =>
    "\"" ++ (s.replace "\\" "\\\\").replace "\"" "\\\"" ++ "\""
  | .jarr xs =>
    "[" ++
      String.intercalate ", "
        (xs.attach.map (fun x => JVal.dumps x.1)) ++ "]"
  | .jobj fs =>
    "\x7b" ++
      String.intercalate ", "
        (fs.attach.map (fun f =>
          "\"" ++ f.1.1 ++ "\": " ++ JVal.dumps f.1.2)) ++ "\x7d"
decreasing_by
  · have h1 := List.sizeOf_lt_of_mem x.2
    simp at h1 ⊢
    omega
  · rcases f with ⟨⟨a, b⟩, hf⟩
    have h2 := List.sizeOf_lt_of_mem hf
    simp at h2 ⊢
    omega

/-- One event of the sandbox's response stream. -/
structure SandboxEvent where
  result : JVal
deriving Repr

/-- The `CodeInterpreter` client handle held by the manager
(`self.code_client`); its remote behaviour is supplied per call as the
response stream, so the handle itself only records its configuration. -/
structure CodeClient where
  region : String
  code_interpreter_id : Option String
deriving Repr, DecidableEq

inductive ToolError where
  | sandboxNotStarted
deriving Repr, DecidableEq

/-- `CodeInterpreterManager`: holds the optional live client. -/
structure CodeInterpreterManager where
  code_client : Option CodeClient
deriving Repr, DecidableEq

/-- `CodeInterpreterManager.invoke_tool`: guard on a live client, issue
the invocation, and return `json.dumps` of the first streamed event's
result — the `for ... return` loop yields `None` (here `none`) when the
stream is empty. The second component lists the remote invocations
issued. -/
def CodeInterpreterManager.invoke_tool (mgr : CodeInterpreterManager)
    (tool_name : String) (arguments : List (String × JVal))
    (stream : List SandboxEvent) :
    Except ToolError (Option String) × List String :=
  match mgr.code_client with
  | none => (.error .sandboxNotStarted, [])
  | some _ =>
    match stream with
    | [] => (.ok none, [tool_name])
    | event :: _ => (.ok (some event.result.dumps), [tool_name])

/-- Module-level `execute_python` tool: prefix the optional description
as a comment, guard on a live client, submit an `executeCode`
invocation with `clearContext = false`, and serialize the first event. -/
def execute_python (mgr : CodeInterpreterManager) (code : String)
    (description : String) (stream : List SandboxEvent) :
    Except ToolError (Option String) × List String :=
  let _code := if description != "" then
    "# " ++ description ++ "\n" ++ code else code
  match mgr.code_client with
  | none => (.error .sandboxNotStarted, [])
  | some _ =>
    match stream with
    | [] => (.ok none, ["executeCode"])
    | event :: _ => (.ok (some event.result.dumps), ["executeCode"])

/-- Modelled from the spec: `execute_command(command)` belongs to the
`create_code_interpreter_tools` variant of `code_interpreter.py` that
is imported by `data_analyzer_agentcore.py` but absent from the source
tree. Per spec §4.3 it has the same contract as `execute_python` but
submits an opaque shell command, and fails with `SandboxNotStartedError`
if invoked before a session is active. -/
def execute_command (mgr : CodeInterpreterManager) (command : String)
    (stream : List SandboxEvent) :
    Except ToolError (Option String) × List String :=
  let _command := command
  match mgr.code_client with
  | none => (.error .sandboxNotStarted, [])
  | some _ =>
    match stream with
    | [] => (.ok none, ["executeCommand"])
    | event :: _ => (.ok (some event.result.dumps), ["executeCommand"])

/-! ## Sandbox session manager (`server/data_analyzer_agentcore.py`)

`analyze_data_with_agentcore` is effectful: it reads environment
variables, calls the remote sandbox service, and mutates the process
global `SESSION_CACHE`. The model threads the cache explicitly and
takes the outcome of each remote interaction as a parameter; the
result records the new cache, how many sandbox start calls were issued
and how many times the one-time setup block (file write, dependency
install, file listing) ran. -/

/-- The process-global `SESSION_CACHE`:
`runtime_session_id → sessionId`. -/
abbrev SessionCache := List (String × String)

/-- Environment and remote-service behaviour for one call:
`interpreter_id` is `CODE_INTERPRETER_TOOL_ID` (`none` covers unset and
empty, both falsy in Python), `fresh_session_id` is the id the remote
start call would return, and each flag says whether the corresponding
remote interaction raises. -/
structure AnalyzeEnv where
  interpreter_id : Option String
  fresh_session_id : String
  start_fails : Bool
  setup_fails : Bool
  agent_fails : Bool
deriving Repr, DecidableEq

inductive AnalyzeError where
  | configError
  | startError
  | runtimeError
deriving Repr, DecidableEq

/-- What one call to `analyze_data_with_agentcore` did. -/
structure AnalyzeResult where
  outcome : Except AnalyzeError Unit
  cache : SessionCache
  startCalls : Nat
  setupRuns : Nat
deriving Repr

/-- `_prepare_files_for_sandbox`: one `{name}.csv` file per table, with
the table's CSV text (external `to_csv` modelled as simple joining). -/
def prepare_files_for_sandbox (dataframes : List (String × DataFrame)) :
    List (String × String) :=
  dataframes.map (fun p =>
    (p.1 ++ ".csv",
      String.intercalate "\n"
        ((p.2.cols :: p.2.rows).map (String.intercalate ","))))

/-- The `except Exception` handler of `analyze_data_with_agentcore`:
delete the cache entry when the runtime session id is truthy and
present, then re-raise. -/
def analyzeExceptCleanup (cache : SessionCache)
    (runtime_session_id : Option String) : SessionCache :=
  match runtime_session_id with
  | some s =>
    if s != "" && dictContains cache s then dictDelete cache s else cache
  | none => cache

/-- The `try` block of `analyze_data_with_agentcore`: run the one-time
setup when the session is new, then the agent loop; any raise lands in
the `except` handler, which evicts the cache entry and re-raises. -/
def analyzeBody (cache : SessionCache) (runtime_session_id : Option String)
    (is_new_session : Bool) (env : AnalyzeEnv) (starts : Nat) :
    AnalyzeResult :=
  let setups := if is_new_session then 1 else 0
  if is_new_session && env.setup_fails then
    ⟨.error .runtimeError, analyzeExceptCleanup cache runtime_session_id,
      starts, setups⟩
  else if env.agent_fails then
    ⟨.error .runtimeError, analyzeExceptCleanup cache runtime_session_id,
      starts, setups⟩
  else
    ⟨.ok (), cache, starts, setups⟩

/-- `analyze_data_with_agentcore`: require the interpreter id, reuse
the cached session when the truthy runtime session id is already
mapped (skipping the start call and the setup), otherwise issue one
start call and store the mapping for a truthy key; then run the body
under the try/except. -/
def analyze_data_with_agentcore (dataframes : List (String × DataFrame))
    (cache : SessionCache) (runtime_session_id : Option String)
    (env : AnalyzeEnv) : AnalyzeResult :=
  let _files_to_create := prepare_files_for_sandbox dataframes
  if !(pyTruthy env.interpreter_id) then
    ⟨.error .configError, cache, 0, 0⟩
  else
    match runtime_session_id with
    | some s =>
      if s != "" && dictContains cache s then
        analyzeBody cache (some s) false env 0
      else if env.start_fails then
        ⟨.error .startError, cache, 1, 0⟩
      else
        let cache' := if s != "" then
          dictInsert cache s env.fresh_session_id else cache
        analyzeBody cache' (some s) true env 1
    | none =>
      if env.start_fails then
        ⟨.error .startError, cache, 1, 0⟩
      else
        analyzeBody cache none true env 1

/-! ## HTTP handlers (`server/app.py`)

Each handler is modelled as a pure function over the request payload,
the session cache, and the behaviour of the external collaborators.
A normal return carries status 200; a raised `HTTPException` carries
its status; any other exception is caught at the boundary and mapped
to 500. -/

/-- `/cleanup-session`: drop the cached mapping when present; either
way return a message with status 200. -/
def cleanup_session (cache : SessionCache) (runtime_session_id : String) :
    SessionCache × Nat × String :=
  if dictContains cache runtime_session_id then
    let session_id := (dictGet cache runtime_session_id).getD ""
    (dictDelete cache runtime_session_id, 200,
      "Session " ++ session_id ++ " removed from cache for runtime session "
        ++ runtime_session_id)
  else
    (cache, 200,
      "No session found for runtime session " ++ runtime_session_id)

/-- Extension filter of `_get_chart_urls_from_s3`:
`key.lower().endswith(('.png', '.jpg', '.jpeg', '.svg', '.pdf'))`. -/
def isChartKey (key : String) : Bool :=
  let k := (pyLower key).data
  List.isSuffixOf ".png".data k || List.isSuffixOf ".jpg".data k ||
    List.isSuffixOf ".jpeg".data k || List.isSuffixOf ".svg".data k ||
    List.isSuffixOf ".pdf".data k

/-- Model of the external `generate_presigned_url` for `get_object`
(an authenticated time-limited GET link for one bucket/key pair). -/
def generate_presigned_url (bucket key : String) : String :=
  "https://" ++ bucket ++ ".s3.amazonaws.com/" ++ key ++ "?X-Amz-Expires=3600"

/-- `_get_chart_urls_from_s3`: list the bucket under
`charts/{session_id}/` (`bucketKeys` are the bucket's object keys; the
listing response omits `Contents` when nothing matches the prefix),
keep image/PDF keys, and pre-sign each; a client/Boto error during the
listing is caught and yields `[]`. -/
def get_chart_urls_from_s3 (session_id bucket : String)
    (bucketKeys : List String) (listFails : Bool) : List String :=
  if listFails then []
  else
    let pfx := "charts/" ++ session_id ++ "/"
    let contents := bucketKeys.filter (fun k => strStartsWith k pfx)
    if contents.isEmpty then []
    else
      (contents.filter isChartKey).map (generate_presigned_url bucket)

/-- What one `/invocations` request did: final status, whether the S3
dataset load was attempted, and the `analyze_data_with_agentcore` call
when one was made. -/
structure InvocationsOutcome where
  status : Nat
  loadAttempted : Bool
  analyze : Option AnalyzeResult
deriving Repr

/-- Sandbox start calls issued during one `/invocations` request. -/
def InvocationsOutcome.startCalls (o : InvocationsOutcome) : Nat :=
  match o.analyze with
  | none => 0
  | some r => r.startCalls

/-- Cache after one `/invocations` request (unchanged when the
analysis never ran). -/
def InvocationsOutcome.cacheAfter (o : InvocationsOutcome)
    (cache : SessionCache) : SessionCache :=
  match o.analyze with
  | none => cache
  | some r => r.cache

/-- `/invocations`: validate `s3_urls` and `prompt` (falsy → 400
before any load), load the datasets (a loader raise becomes a 500 at
the boundary), 400 when nothing was loaded, require the bucket
(`none` covers an unset or empty `S3_BUCKET_NAME`, → 500), resolve the
runtime session id as `payload.runtime_session_id or header`, and run
the analysis; its raise becomes a 500, a normal return a 200. -/
def invocations (s3_urls : List (String × String)) (prompt : String)
    (payload_rsid : Option String) (header_rsid : Option String)
    (fetch : String → String → FileBody) (bucket : Option String)
    (cache : SessionCache) (env : AnalyzeEnv) : InvocationsOutcome :=
  if s3_urls.isEmpty then ⟨400, false, none⟩
  else if prompt = "" then ⟨400, false, none⟩
  else
    match load_multiple_from_s3 s3_urls fetch with
    | .error _ => ⟨500, true, none⟩
    | .ok df_dict =>
      if df_dict.isEmpty then ⟨400, true, none⟩
      else
        match bucket with
        | none => ⟨500, true, none⟩
        | some _ =>
          let runtime_session_id :=
            match payload_rsid with
            | some s => if s != "" then some s else header_rsid
            | none => header_rsid
          let r := analyze_data_with_agentcore df_dict cache
            runtime_session_id env
          match r.outcome with
          | .ok _ => ⟨200, true, some r⟩
          | .error _ => ⟨500, true, some r⟩

/-- The raw JSON body of a `POST /invocations` request, before
framework validation: each field may be absent. `runtime_session_id`
is declared optional with default `None`, so absence and `null`
coincide as `none`. -/
structure RawInvocationBody where
  s3_urls : Option (List (String × String))
  prompt : Option String
  runtime_session_id : Option String
deriving Repr

/-- The full `POST /invocations` endpoint as served: FastAPI validates
the body against `InvocationRequest` (`app.py`), whose `s3_urls` and
`prompt` fields are required with no custom validation handler, so a
body missing either field is rejected with status 422 before the
handler runs (no load, no sandbox start); a complete body is passed to
the `invocations` handler. -/
def invocations_endpoint (body : RawInvocationBody)
    (header_rsid : Option String) (fetch : String → String → FileBody)
    (bucket : Option String) (cache : SessionCache) (env : AnalyzeEnv) :
    InvocationsOutcome :=
  match body.s3_urls, body.prompt with
  | some s3_urls, some prompt =>
    invocations s3_urls prompt body.runtime_session_id header_rsid fetch
      bucket cache env
  | _, _ => ⟨422, false, none⟩

/-! ## Dictionary lemmas -/

theorem find?_map_overwrite {α : Type} (d : List (String × α)) (k : String)
    (v : α) (h : d.any (fun p => p.1 == k) = true) :
    (d.map (fun p => if p.1 == k then (k, v) else p)).find?
        (fun p => p.1 == k) = some (k, v) := by
  induction d with
  | nil => simp at h
  | cons p d ih =>
    by_cases hp : p.1 = k
    · rw [List.map_cons, if_pos (by simp [hp]),
        List.find?_cons_of_pos _ (by simp)]
    · have h' : d.any (fun q => q.1 == k) = true := by
        rw [List.any_cons] at h
        rcases Bool.or_eq_true_iff.mp h with h1 | h1
        · exact absurd (by simpa using h1) hp
        · exact h1
      rw [List.map_cons, if_neg (by simp [hp]),
        List.find?_cons_of_neg _ (by simp [hp])]
      exact ih h'

theorem find?_append_self {α : Type} (d : List (String × α)) (k : String)
    (v : α) (h : d.any (fun p => p.1 == k) = false) :
    (d ++ [(k, v)]).find? (fun p => p.1 == k) = some (k, v) := by
  induction d with
  | nil => simp [List.find?]
  | cons p d ih =>
    have hp : ¬ p.1 = k := by
      intro hpk
      rw [List.any_cons] at h
      simp [hpk] at h
    have h' : d.any (fun q => q.1 == k) = false := by
      rw [List.any_cons] at h
      simpa [hp] using h
    rw [List.cons_append, List.find?_cons_of_neg _ (by simp [hp])]
    exact ih h'

theorem dictGet_dictInsert_self {α : Type} (d : List (String × α))
    (k : String) (v : α) : dictGet (dictInsert d k v) k = some v := by
  unfold dictInsert dictGet
  by_cases h : d.any (fun p => p.1 == k) = true
  · rw [if_pos h, find?_map_overwrite d k v h]
    rfl
  · have h' : d.any (fun p => p.1 == k) = false := by
      cases hb : d.any (fun p => p.1 == k) with
      | false => rfl
      | true => exact absurd hb h
    rw [if_neg (by simp [h']), find?_append_self d k v h']
    rfl

theorem dictContains_of_dictGet {α : Type} (d : List (String × α))
    (k : String) (v : α) (h : dictGet d k = some v) :
    dictContains d k = true := by
  unfold dictGet at h
  unfold dictContains
  rcases hf : d.find? (fun p => p.1 == k) with _ | p
  · rw [hf] at h; simp at h
  · have := List.find?_some hf
    have hm := List.mem_of_find?_eq_some hf
    simp only [List.any_eq_true]
    exact ⟨p, hm, this⟩

theorem dictContains_dictInsert_self {α : Type} (d : List (String × α))
    (k : String) (v : α) : dictContains (dictInsert d k v) k = true :=
  dictContains_of_dictGet _ k v (dictGet_dictInsert_self d k v)

theorem dictContains_dictDelete_self {α : Type} (d : List (String × α))
    (k : String) : dictContains (dictDelete d k) k = false := by
  unfold dictContains dictDelete
  rw [List.any_eq_false]
  intro p hp
  have h2 := List.of_mem_filter hp
  simp only [bne_iff_ne, ne_eq] at h2
  simp [h2]

/-! ## Claims about the tool adapter -/

/-- C5: for every sandbox invocation whose response stream contains at
least one event, `execute_python` and `CodeInterpreterManager.invoke_tool`
return the JSON serialization of the first event's result and consume
no later event of the stream, regardless of how many events the stream
contains. -/
theorem invoke_first_event_only (mgr : CodeInterpreterManager)
    (client : CodeClient) (hm : mgr.code_client = some client)
    (code description tool_name : String)
    (arguments : List (String × JVal)) (e : SandboxEvent)
    (rest rest' : List SandboxEvent) :
    (execute_python mgr code description (e :: rest)).1 =
      .ok (some e.result.dumps) ∧
    execute_python mgr code description (e :: rest) =
      execute_python mgr code description (e :: rest') ∧
    (mgr.invoke_tool tool_name arguments (e :: rest)).1 =
      .ok (some e.result.dumps) ∧
    mgr.invoke_tool tool_name arguments (e :: rest) =
      mgr.invoke_tool tool_name arguments (e :: rest') := by
  simp [execute_python, CodeInterpreterManager.invoke_tool, hm]

theorem invoke_first_event_only_witness :
    (({ code_client := some ⟨"us-west-2", some "ci-tool"⟩ } :
        CodeInterpreterManager).code_client = some ⟨"us-west-2", some "ci-tool"⟩) ∧
    (execute_python { code_client := some ⟨"us-west-2", some "ci-tool"⟩ }
        "print(1)" "" [⟨.jnum 1⟩, ⟨.jnum 2⟩]).1 =
      .ok (some (JVal.jnum 1).dumps) := by
  refine ⟨rfl, ?_⟩
  exact (invoke_first_event_only
    { code_client := some ⟨"us-west-2", some "ci-tool"⟩ }
    ⟨"us-west-2", some "ci-tool"⟩ rfl "print(1)" "" "executeCode" []
    ⟨.jnum 1⟩ [⟨.jnum 2⟩] []).1

/-- C9: both tool operations, `execute_python` and `execute_command`,
as well as `CodeInterpreterManager.invoke_tool`, fail with the
sandbox-not-started error when no code-interpreter client is live, and
issue no remote invocation in that case. -/
theorem not_started_guard (mgr : CodeInterpreterManager)
    (hm : mgr.code_client = none)
    (code description command tool_name : String)
    (arguments : List (String × JVal)) (stream : List SandboxEvent) :
    execute_python mgr code description stream =
      (.error .sandboxNotStarted, []) ∧
    execute_command mgr command stream = (.error .sandboxNotStarted, []) ∧
    mgr.invoke_tool tool_name arguments stream =
      (.error .sandboxNotStarted, []) := by
  simp [execute_python, execute_command, CodeInterpreterManager.invoke_tool,
    hm]

theorem not_started_guard_witness :
    (({ code_client := none } : CodeInterpreterManager).code_client = none) ∧
    execute_python { code_client := none } "print(1)" "" [] =
      (.error .sandboxNotStarted, []) := by
  refine ⟨rfl, ?_⟩
  exact (not_started_guard { code_client := none } rfl "print(1)" "" "ls"
    "executeCode" [] []).1

/-- C10: for every sandbox invocation whose response stream contains
zero events, `execute_python` and `CodeInterpreterManager.invoke_tool`
fall through their `for` loop and return `None` (here `none`) rather
than the JSON-formatted string their declared contract promises. -/
theorem empty_stream_returns_none (mgr : CodeInterpreterManager)
    (client : CodeClient) (hm : mgr.code_client = some client)
    (code description tool_name : String)
    (arguments : List (String × JVal)) :
    (execute_python mgr code description []).1 = .ok none ∧
    (mgr.invoke_tool tool_name arguments []).1 = .ok none ∧
    ∀ s : String, (execute_python mgr code description []).1 ≠ .ok (some s) := by
  simp [execute_python, CodeInterpreterManager.invoke_tool, hm]

theorem empty_stream_returns_none_witness :
    (({ code_client := some ⟨"us-west-2", some "ci-tool"⟩ } :
        CodeInterpreterManager).code_client = some ⟨"us-west-2", some "ci-tool"⟩) ∧
    (execute_python { code_client := some ⟨"us-west-2", some "ci-tool"⟩ }
        "print(1)" "" []).1 = .ok none := by
  refine ⟨rfl, ?_⟩
  exact (empty_stream_returns_none
    { code_client := some ⟨"us-west-2", some "ci-tool"⟩ }
    ⟨"us-west-2", some "ci-tool"⟩ rfl "print(1)" "" "executeCode" []).1

/-! ## Claims about the HTTP handlers -/

/-- C8: `/cleanup-session` removes any cached session mapping for the
given key, returns 200, and calling it again for the already-removed
key also returns 200 without changing the cache; after either call the
cache holds no entry for the key. -/
theorem cleanup_session_idempotent (cache : SessionCache) (k : String) :
    (cleanup_session cache k).2.1 = 200 ∧
    (cleanup_session (cleanup_session cache k).1 k).2.1 = 200 ∧
    dictContains (cleanup_session cache k).1 k = false ∧
    dictContains (cleanup_session (cleanup_session cache k).1 k).1 k = false ∧
    (cleanup_session (cleanup_session cache k).1 k).1 =
      (cleanup_session cache k).1 := by
  have hdel : dictContains (cleanup_session cache k).1 k = false := by
    by_cases h : dictContains cache k = true
    · rw [cleanup_session, if_pos h]
      exact dictContains_dictDelete_self cache k
    · have h0 : dictContains cache k = false := by simpa using h
      rw [cleanup_session, if_neg h]
      exact h0
  have hsecond : cleanup_session (cleanup_session cache k).1 k =
      ((cleanup_session cache k).1, 200,
        "No session found for runtime session " ++ k) := by
    rw [cleanup_session, if_neg (by simp [hdel])]
  have hstat1 : (cleanup_session cache k).2.1 = 200 := by
    by_cases h : dictContains cache k = true
    · rw [cleanup_session, if_pos h]
    · rw [cleanup_session, if_neg h]
  refine ⟨hstat1, ?_, hdel, ?_, ?_⟩
  · rw [hsecond]
  · rw [hsecond]
    exact hdel
  · rw [hsecond]

/-! ## Claims about the session manager -/

/-- C1: a call whose runtime session id is already cached issues no
start call and skips the one-time setup; a call for an uncached key
issues one start call and stores the `runtime_session_id → sessionId`
mapping; hence two sequential successful requests with the same key
perform exactly one start call and exactly one setup in total. -/
theorem analyze_session_reuse
    (dataframes dataframes2 : List (String × DataFrame))
    (cache : SessionCache) (s : String) (env env2 : AnalyzeEnv)
    (hs : s ≠ "")
    (hid : pyTruthy env.interpreter_id = true)
    (hstart : env.start_fails = false)
    (hsetup : env.setup_fails = false)
    (hagent : env.agent_fails = false)
    (hid2 : pyTruthy env2.interpreter_id = true)
    (hstart2 : env2.start_fails = false)
    (hsetup2 : env2.setup_fails = false)
    (hagent2 : env2.agent_fails = false) :
    (dictContains cache s = true →
      (analyze_data_with_agentcore dataframes cache (some s) env).startCalls
        = 0 ∧
      (analyze_data_with_agentcore dataframes cache (some s) env).setupRuns
        = 0) ∧
    (dictContains cache s = false →
      (analyze_data_with_agentcore dataframes cache (some s) env).startCalls
        = 1 ∧
      dictGet
        (analyze_data_with_agentcore dataframes cache (some s) env).cache s
        = some env.fresh_session_id) ∧
    (dictContains cache s = false →
      (analyze_data_with_agentcore dataframes cache (some s) env).startCalls
          + (analyze_data_with_agentcore dataframes2
              (analyze_data_with_agentcore dataframes cache (some s) env).cache
              (some s) env2).startCalls = 1 ∧
      (analyze_data_with_agentcore dataframes cache (some s) env).setupRuns
          + (analyze_data_with_agentcore dataframes2
              (analyze_data_with_agentcore dataframes cache (some s) env).cache
              (some s) env2).setupRuns = 1) := by
  have hsb : (s != "") = true := by simpa using hs
  refine ⟨?_, ?_, ?_⟩
  · intro hc
    rw [analyze_data_with_agentcore]
    simp only [hid, Bool.not_true, Bool.false_eq_true, if_false, hsb, hc,
      Bool.and_self, if_true]
    simp [analyzeBody, hagent]
  · intro hc
    rw [analyze_data_with_agentcore]
    simp only [hid, Bool.not_true, Bool.false_eq_true, if_false, hsb, hc,
      Bool.and_false, if_false, hstart, hsb, if_true]
    simp [analyzeBody, hsetup, hagent, dictGet_dictInsert_self]
  · intro hc
    have hfst : analyze_data_with_agentcore dataframes cache (some s) env =
        ⟨.ok (), dictInsert cache s env.fresh_session_id, 1, 1⟩ := by
      rw [analyze_data_with_agentcore]
      simp only [hid, Bool.not_true, Bool.false_eq_true, if_false, hsb, hc,
        Bool.and_false, if_false, hstart, if_true]
      simp [analyzeBody, hsetup, hagent]
    have hc2 : dictContains (dictInsert cache s env.fresh_session_id) s
        = true := dictContains_dictInsert_self cache s env.fresh_session_id
    have hsnd : (analyze_data_with_agentcore dataframes2
        (dictInsert cache s env.fresh_session_id) (some s) env2).startCalls
          = 0 ∧
        (analyze_data_with_agentcore dataframes2
          (dictInsert cache s env.fresh_session_id) (some s) env2).setupRuns
          = 0 := by
      rw [analyze_data_with_agentcore]
      simp only [hid2, Bool.not_true, Bool.false_eq_true, if_false, hsb, hc2,
        Bool.and_self, if_true]
      simp [analyzeBody, hagent2]
    rw [hfst]
    exact ⟨by simp [hsnd.1], by simp [hsnd.2]⟩

theorem analyze_session_reuse_witness :
    ("sess" : String) ≠ "" ∧
    pyTruthy (some "ci-tool") = true ∧
    dictContains ([] : SessionCache) "sess" = false ∧
    ((analyze_data_with_agentcore [] [] (some "sess")
        ⟨some "ci-tool", "S1", false, false, false⟩).startCalls
      + (analyze_data_with_agentcore []
          (analyze_data_with_agentcore [] [] (some "sess")
            ⟨some "ci-tool", "S1", false, false, false⟩).cache
          (some "sess") ⟨some "ci-tool", "S2", false, false, false⟩).startCalls
      = 1) := by
  refine ⟨by decide, by decide, by decide, ?_⟩
  exact ((analyze_session_reuse [] [] [] "sess"
    ⟨some "ci-tool", "S1", false, false, false⟩
    ⟨some "ci-tool", "S2", false, false, false⟩
    (by decide) rfl rfl rfl rfl rfl rfl rfl rfl).2.2 (by decide)).1

/-- C2: with a non-empty runtime session id, any unhandled exception
raised after the session was established (a failure inside the `try`
block) leaves no cache entry for that key, while a successful call
leaves the entry in place for reuse. -/
theorem analyze_teardown_on_error
    (dataframes : List (String × DataFrame)) (cache : SessionCache)
    (s : String) (env : AnalyzeEnv) (hs : s ≠ "") :
    ((analyze_data_with_agentcore dataframes cache (some s) env).outcome =
        .error .runtimeError →
      dictContains
        (analyze_data_with_agentcore dataframes cache (some s) env).cache s
        = false) ∧
    ((analyze_data_with_agentcore dataframes cache (some s) env).outcome =
        .ok () →
      dictContains
        (analyze_data_with_agentcore dataframes cache (some s) env).cache s
        = true) := by
  have hsb : (s != "") = true := by simpa using hs
  have hclean : ∀ c : SessionCache, dictContains c s = true →
      dictContains (analyzeExceptCleanup c (some s)) s = false := by
    intro c hc
    rw [analyzeExceptCleanup]
    simp only [hsb, hc, Bool.and_self, if_true]
    exact dictContains_dictDelete_self c s
  rw [analyze_data_with_agentcore]
  by_cases hid : pyTruthy env.interpreter_id = true
  · simp only [hid, Bool.not_true, Bool.false_eq_true, if_false]
    by_cases hc : dictContains cache s = true
    · simp only [hsb, hc, Bool.and_self, if_true]
      rw [analyzeBody]
      simp only [Bool.false_and, Bool.false_eq_true, if_false]
      by_cases hag : env.agent_fails = true
      · simp only [hag, if_true]
        exact ⟨fun _ => hclean cache hc, by simp⟩
      · simp only [hag, if_false]
        simp only [Bool.not_eq_true] at hag
        simp [hag, hc]
    · have hc0 : dictContains cache s = false := by simpa using hc
      simp only [hsb, hc0, Bool.and_false, if_false]
      by_cases hst : env.start_fails = true
      · simp [hst, hc0]
      · simp only [Bool.not_eq_true] at hst
        simp only [hst, Bool.false_eq_true, if_false, hsb, if_true]
        have hcin : dictContains (dictInsert cache s env.fresh_session_id) s
            = true := dictContains_dictInsert_self cache s _
        rw [analyzeBody]
        by_cases hsf : env.setup_fails = true
        · simp only [hsf, Bool.and_true, if_true]
          exact ⟨fun _ => hclean _ hcin, by simp⟩
        · simp only [Bool.not_eq_true] at hsf
          simp only [hsf, Bool.and_false, Bool.false_eq_true, if_false]
          by_cases hag : env.agent_fails = true
          · simp only [hag, if_true]
            exact ⟨fun _ => hclean _ hcin, by simp⟩
          · simp only [Bool.not_eq_true] at hag
            simp [hag, hcin]
  · simp only [Bool.not_eq_true] at hid
    simp [hid]

theorem analyze_teardown_on_error_witness :
    ("sess" : String) ≠ "" ∧
    (analyze_data_with_agentcore [] [("sess", "S0")] (some "sess")
        ⟨some "ci-tool", "S1", false, false, true⟩).outcome =
      .error .runtimeError ∧
    dictContains
      (analyze_data_with_agentcore [] [("sess", "S0")] (some "sess")
        ⟨some "ci-tool", "S1", false, false, true⟩).cache "sess" = false := by
  refine ⟨by decide, by rfl, ?_⟩
  exact (analyze_teardown_on_error [] [("sess", "S0")] "sess"
    ⟨some "ci-tool", "S1", false, false, true⟩ (by decide)).1 (by rfl)

/-! ## String helper lemmas -/

theorem string_sep_ne (N A : String) : ¬ (N ++ "_" ++ A = N) := by
  intro h
  have hl := congrArg String.length h
  rw [String.length_append, String.length_append] at hl
  rw [show ("_" : String).length = 1 from rfl] at hl
  omega

theorem string_sep_inj {N A B : String} (h : N ++ "_" ++ A = N ++ "_" ++ B) :
    A = B := by
  have hd := congrArg String.data h
  rw [String.data_append, String.data_append, String.data_append,
    String.data_append] at hd
  have h2 := List.append_cancel_left hd
  cases A with
  | mk da =>
    cases B with
    | mk db =>
      simp only at h2
      rw [h2]

/-! ## Claims about the dataset loader -/

/-- C3: a multi-sheet spreadsheet loaded under logical name `N` with
sheets `A` and `B` yields tables named `N_A` and `N_B` and never a
table named `N`, while each other supported format yields exactly one
table named `N`. -/
theorem load_multiple_dataset_naming
    (N A B u : String) (a b df : DataFrame)
    (fetch : String → String → FileBody) :
    ((get_file_extension (parse_s3_url u).2 = "xlsx" ∨
        get_file_extension (parse_s3_url u).2 = "xls") →
      fetch (parse_s3_url u).1 (parse_s3_url u).2 =
        .excelBody [(A, a), (B, b)] →
      A ≠ B →
      load_multiple_from_s3 [(N, u)] fetch =
        .ok [(N ++ "_" ++ A, a), (N ++ "_" ++ B, b)] ∧
      dictGet [(N ++ "_" ++ A, a), (N ++ "_" ++ B, b)] N = none) ∧
    (get_file_extension (parse_s3_url u).2 = "csv" →
      fetch (parse_s3_url u).1 (parse_s3_url u).2 = .csvBody df →
      load_multiple_from_s3 [(N, u)] fetch = .ok [(N, df)]) ∧
    (get_file_extension (parse_s3_url u).2 = "parquet" →
      fetch (parse_s3_url u).1 (parse_s3_url u).2 = .parquetBody df →
      load_multiple_from_s3 [(N, u)] fetch = .ok [(N, df)]) ∧
    (get_file_extension (parse_s3_url u).2 = "json" →
      fetch (parse_s3_url u).1 (parse_s3_url u).2 = .jsonBody df →
      load_multiple_from_s3 [(N, u)] fetch = .ok [(N, df)]) := by
  refine ⟨?_, ?_, ?_, ?_⟩
  · intro hext hf hAB
    have hne1 : ¬ (N ++ "_" ++ A = N ++ "_" ++ B) := fun hcon =>
      hAB (string_sep_inj hcon)
    have hload : load_from_s3 u fetch = .ok [(A, a), (B, b)] := by
      rcases hext with hx | hx <;>
      · simp only [load_from_s3, hf, hx]
        simp [dictInsert, hAB]
    constructor
    · simp only [load_multiple_from_s3, load_multiple_from_s3.go, hload,
        mergeEntry]
      simp [dictInsert, hne1]
    · simp [dictGet, string_sep_ne N A, string_sep_ne N B]
  · intro hx hf
    simp only [load_multiple_from_s3, load_multiple_from_s3.go,
      load_from_s3, hf, hx, mergeEntry]
    simp [dictInsert]
  · intro hx hf
    simp only [load_multiple_from_s3, load_multiple_from_s3.go,
      load_from_s3, hf, hx, mergeEntry]
    simp [dictInsert]
  · intro hx hf
    simp only [load_multiple_from_s3, load_multiple_from_s3.go,
      load_from_s3, hf, hx, mergeEntry]
    simp [dictInsert]

theorem load_multiple_dataset_naming_witness :
    get_file_extension (parse_s3_url "s3://bkt/report.xlsx").2 = "xlsx" ∧
    ("A" : String) ≠ "B" ∧
    load_multiple_from_s3 [("N", "s3://bkt/report.xlsx")]
        (fun _ _ => .excelBody [("A", ⟨["x"], []⟩), ("B", ⟨["y"], []⟩)]) =
      .ok [("N_A", ⟨["x"], []⟩), ("N_B", ⟨["y"], []⟩)] := by
  refine ⟨by decide, by decide, ?_⟩
  have h := ((load_multiple_dataset_naming "N" "A" "B" "s3://bkt/report.xlsx"
    ⟨["x"], []⟩ ⟨["y"], []⟩ ⟨[], []⟩
    (fun _ _ => .excelBody [("A", ⟨["x"], []⟩), ("B", ⟨["y"], []⟩)])).1
    (Or.inl (by decide)) rfl (by decide)).1
  exact h

/-- C4: for every object reference whose key's extension is not one of
csv, xlsx, xls, parquet, json, `load_from_s3` fails with the
unsupported-format error naming that extension, and the outcome does
not depend on the fetched object (no further processing). -/
theorem load_from_s3_unsupported_format (u : String)
    (fetch fetch' : String → String → FileBody)
    (h : ¬ get_file_extension (parse_s3_url u).2 ∈
        (["csv", "xlsx", "xls", "parquet", "json"] : List String)) :
    load_from_s3 u fetch =
      .error (.unsupportedFormat (get_file_extension (parse_s3_url u).2)) ∧
    load_from_s3 u fetch = load_from_s3 u fetch' := by
  simp only [List.mem_cons, List.not_mem_nil, or_false, not_or] at h
  obtain ⟨h1, h2, h3, h4, h5⟩ := h
  have key : ∀ f : String → String → FileBody, load_from_s3 u f =
      .error (.unsupportedFormat (get_file_extension (parse_s3_url u).2)) := by
    intro f
    simp only [load_from_s3]
    rw [if_neg h1, if_neg (not_or.mpr ⟨h2, h3⟩), if_neg h4, if_neg h5]
  exact ⟨key fetch, by rw [key fetch, key fetch']⟩

theorem load_from_s3_unsupported_format_witness :
    ¬ get_file_extension (parse_s3_url "s3://bkt/notes.txt").2 ∈
        (["csv", "xlsx", "xls", "parquet", "json"] : List String) ∧
    load_from_s3 "s3://bkt/notes.txt" (fun _ _ => .csvBody ⟨[], []⟩) =
      .error (.unsupportedFormat "txt") := by
  refine ⟨by decide, ?_⟩
  have h := (load_from_s3_unsupported_format "s3://bkt/notes.txt"
    (fun _ _ => .csvBody ⟨[], []⟩) (fun _ _ => .csvBody ⟨[], []⟩)
    (by decide)).1
  rw [h]
  rfl

/-- C6 counterexample: a `POST /invocations` request whose body lacks
the required `s3_urls` field is rejected by framework validation with
status 422, not the claimed 400. -/
theorem invocations_missing_field_is_422 :
    (invocations_endpoint ⟨none, some "how many rows?", none⟩ none
        (fun _ _ => FileBody.csvBody ⟨[], []⟩) (some "bkt") []
        ⟨some "ci-tool", "S1", false, false, false⟩).status = 422 ∧
    ¬ (invocations_endpoint ⟨none, some "how many rows?", none⟩ none
        (fun _ _ => FileBody.csvBody ⟨[], []⟩) (some "bkt") []
        ⟨some "ci-tool", "S1", false, false, false⟩).status = 400 := by
  exact ⟨rfl, by decide⟩

/-- C6 (amended): a `POST /invocations` body missing `s3_urls` or
`prompt` is rejected by framework validation with status 422 before
the handler runs (no load, no sandbox start); a present-but-empty
`s3_urls` yields 400 with no load and no sandbox start, a
present-but-empty `prompt` likewise, and a loader result with no
table yields 400. -/
theorem invocations_request_validation
    (s3_urls : List (String × String)) (prompt : String)
    (payload_rsid header_rsid : Option String)
    (fetch : String → String → FileBody) (bucket : Option String)
    (cache : SessionCache) (env : AnalyzeEnv) :
    ((invocations_endpoint ⟨none, some prompt, payload_rsid⟩ header_rsid
          fetch bucket cache env).status = 422 ∧
      (invocations_endpoint ⟨none, some prompt, payload_rsid⟩ header_rsid
          fetch bucket cache env).loadAttempted = false ∧
      (invocations_endpoint ⟨none, some prompt, payload_rsid⟩ header_rsid
          fetch bucket cache env).startCalls = 0) ∧
    ((invocations_endpoint ⟨some s3_urls, none, payload_rsid⟩ header_rsid
          fetch bucket cache env).status = 422 ∧
      (invocations_endpoint ⟨some s3_urls, none, payload_rsid⟩ header_rsid
          fetch bucket cache env).loadAttempted = false ∧
      (invocations_endpoint ⟨some s3_urls, none, payload_rsid⟩ header_rsid
          fetch bucket cache env).startCalls = 0) ∧
    (s3_urls = [] →
      (invocations_endpoint ⟨some s3_urls, some prompt, payload_rsid⟩
          header_rsid fetch bucket cache env).status = 400 ∧
      (invocations_endpoint ⟨some s3_urls, some prompt, payload_rsid⟩
          header_rsid fetch bucket cache env).loadAttempted = false ∧
      (invocations_endpoint ⟨some s3_urls, some prompt, payload_rsid⟩
          header_rsid fetch bucket cache env).startCalls = 0) ∧
    (prompt = "" →
      (invocations_endpoint ⟨some s3_urls, some prompt, payload_rsid⟩
          header_rsid fetch bucket cache env).status = 400 ∧
      (invocations_endpoint ⟨some s3_urls, some prompt, payload_rsid⟩
          header_rsid fetch bucket cache env).loadAttempted = false ∧
      (invocations_endpoint ⟨some s3_urls, some prompt, payload_rsid⟩
          header_rsid fetch bucket cache env).startCalls = 0) ∧
    (load_multiple_from_s3 s3_urls fetch = .ok [] →
      (invocations_endpoint ⟨some s3_urls, some prompt, payload_rsid⟩
          header_rsid fetch bucket cache env).status = 400) := by
  have hfull : invocations_endpoint ⟨some s3_urls, some prompt, payload_rsid⟩
      header_rsid fetch bucket cache env =
      invocations s3_urls prompt payload_rsid header_rsid fetch bucket
        cache env := rfl
  refine ⟨?_, ?_, ?_, ?_, ?_⟩
  · exact ⟨rfl, rfl, rfl⟩
  · exact ⟨rfl, rfl, rfl⟩
  · intro h
    subst h
    rw [hfull]
    simp [invocations, InvocationsOutcome.startCalls]
  · intro h
    subst h
    rw [hfull]
    by_cases hs : s3_urls.isEmpty
    · simp [invocations, hs, InvocationsOutcome.startCalls]
    · simp [invocations, hs, InvocationsOutcome.startCalls]
  · intro hload
    rw [hfull]
    by_cases hs : s3_urls.isEmpty
    · simp [invocations, hs]
    · by_cases hp : prompt = ""
      · simp [invocations, hs, hp]
      · simp [invocations, hs, hp, hload]

theorem invocations_request_validation_witness :
    (invocations_endpoint ⟨some [], some "how many rows?", none⟩ none
        (fun _ _ => FileBody.csvBody ⟨[], []⟩) (some "bkt") []
        ⟨some "ci-tool", "S1", false, false, false⟩).status = 400 ∧
    (invocations_endpoint ⟨some [], some "how many rows?", none⟩ none
        (fun _ _ => FileBody.csvBody ⟨[], []⟩) (some "bkt") []
        ⟨some "ci-tool", "S1", false, false, false⟩).startCalls = 0 := by
  have h := ((invocations_request_validation [] "how many rows?" none none
    (fun _ _ => FileBody.csvBody ⟨[], []⟩) (some "bkt") []
    ⟨some "ci-tool", "S1", false, false, false⟩).2.2.1) rfl
  exact ⟨h.1, h.2.2⟩

/-- C7: the chart list for a session key and bucket holds exactly one
pre-signed URL per listed object under `charts/{key}/` whose name ends
(case-insensitively) in .png/.jpg/.jpeg/.svg/.pdf, and none for any
other object; with no matching object it is an empty list. -/
theorem chart_discovery (session_id bucket : String)
    (bucketKeys : List String) :
    get_chart_urls_from_s3 session_id bucket bucketKeys false =
      (bucketKeys.filter (fun k =>
          strStartsWith k ("charts/" ++ session_id ++ "/") &&
            isChartKey k)).map
        (generate_presigned_url bucket) ∧
    ((bucketKeys.filter (fun k =>
        strStartsWith k ("charts/" ++ session_id ++ "/") &&
          isChartKey k)) = [] →
      get_chart_urls_from_s3 session_id bucket bucketKeys false = []) := by
  have hff : (bucketKeys.filter (fun k =>
        strStartsWith k ("charts/" ++ session_id ++ "/"))).filter isChartKey =
      bucketKeys.filter (fun k =>
        strStartsWith k ("charts/" ++ session_id ++ "/") && isChartKey k) := by
    rw [List.filter_filter]
    apply List.filter_congr
    intro k _
    exact Bool.and_comm _ _
  have h1 : get_chart_urls_from_s3 session_id bucket bucketKeys false =
      (bucketKeys.filter (fun k =>
          strStartsWith k ("charts/" ++ session_id ++ "/") &&
            isChartKey k)).map
        (generate_presigned_url bucket) := by
    rw [get_chart_urls_from_s3]
    simp only [if_neg (by simp : ¬ (false = true))]
    by_cases hc : (bucketKeys.filter (fun k =>
        strStartsWith k ("charts/" ++ session_id ++ "/"))).isEmpty
    · rw [if_pos hc]
      have hcl := List.isEmpty_iff.mp hc
      rw [← hff, hcl]
      rfl
    · rw [if_neg hc, hff]
  exact ⟨h1, fun h => by rw [h1, h]; rfl⟩

theorem chart_discovery_witness :
    ([("charts/k/a.png" : String), "charts/k/b.txt"].filter (fun k =>
        strStartsWith k ("charts/" ++ "k" ++ "/") && isChartKey k)) =
      ["charts/k/a.png"] ∧
    get_chart_urls_from_s3 "k" "bkt" ["charts/k/a.png", "charts/k/b.txt"]
        false = [generate_presigned_url "bkt" "charts/k/a.png"] := by
  refine ⟨by decide, ?_⟩
  have h := (chart_discovery "k" "bkt"
    ["charts/k/a.png", "charts/k/b.txt"]).1
  rw [h]
  rfl

end DataWeaver
